import Mathlib

/-!
Shallow embedding of `src/koyeb.py` (Koyeb account keep-alive checker).

The script reads a JSON list of accounts from the environment variable
`KOYEB_ACCOUNTS`, checks each account's token against the Koyeb API with a
single HTTP GET, and sends a single Telegram notification summarising the
results (or a single error line when the run aborts).

Python values decoded by `json.loads` are modelled by the inductive `JSON`;
Python exceptions are modelled with `Except String` carrying `str(e)`;
the observable side effects (HTTP GET, `time.sleep`, calls to
`send_tg_message`, HTTP POST to Telegram) are recorded in a trace of
`Event`s.  External library behaviour (`json.loads`, the network) enters
as explicit parameters of the run.
-/

namespace Koyeb

/-- A JSON value as decoded by Python's `json.loads`.  Numbers are modelled
as integers (no claim depends on float formatting).  Objects are assoc
lists; `json.loads` produces unique keys. -/
inductive JSON where
  | null : JSON
  | bool (b : Bool) : JSON
  | num (n : Int) : JSON
  | str (s : String) : JSON
  | arr (xs : List JSON) : JSON
  | obj (kvs : List (String × JSON)) : JSON

/-- Python truthiness of a decoded JSON value (`if not x`). -/
def JSON.truthy : JSON → Bool
  | .null => false
  | .bool b => b
  | .num n => n != 0
  | .str s => s ≠ ""
  | .arr xs => !xs.isEmpty
  | .obj kvs => !kvs.isEmpty

/-- Python type name of a decoded JSON value, as it appears in
`AttributeError` / `TypeError` messages. -/
def JSON.typeName : JSON → String
  | .null => "NoneType"
  | .bool _ => "bool"
  | .num _ => "int"
  | .str _ => "str"
  | .arr _ => "list"
  | .obj _ => "dict"

/-- `str(AttributeError)` raised by `x.attr` when `x` lacks the attribute. -/
def noAttrMsg (j : JSON) (attr : String) : String :=
  "'" ++ j.typeName ++ "' object has no attribute '" ++ attr ++ "'"

/-- Dictionary lookup, `d.get(k)` on the assoc list of an object. -/
def lookupKV (kvs : List (String × JSON)) (k : String) : Option JSON :=
  match kvs with
  | [] => none
  | (k', v) :: rest => if k' = k then some v else lookupKV rest k

/-- `account.get(k)`: `None` (here `none`) when the key is absent;
`AttributeError` when the receiver is not a dict. -/
def pyGetOpt (j : JSON) (k : String) : Except String (Option JSON) :=
  match j with
  | .obj kvs => .ok (lookupKV kvs k)
  | _ => .error (noAttrMsg j "get")

mutual
/-- Python `repr` of a decoded JSON value (string escaping not modelled;
no claim exercises it). -/
def pyRepr : JSON → String
  | .null => "None"
  | .bool b => if b then "True" else "False"
  | .num n => toString n
  | .str s => "'" ++ s ++ "'"
  | .arr xs => "[" ++ pyReprList xs ++ "]"
  | .obj kvs => "\x7b" ++ pyReprObj kvs ++ "\x7d"

/-- `", ".join(repr(x) for x in xs)`. -/
def pyReprList : List JSON → String
  | [] => ""
  | [x] => pyRepr x
  | x :: y :: rest => pyRepr x ++ ", " ++ pyReprList (y :: rest)

/-- `", ".join(repr(k) + ": " + repr(v) ...)`. -/
def pyReprObj : List (String × JSON) → String
  | [] => ""
  | [(k, v)] => "'" ++ k ++ "': " ++ pyRepr v
  | (k, v) :: e :: rest => "'" ++ k ++ "': " ++ pyRepr v ++ ", " ++ pyReprObj (e :: rest)
end

/-- Python `str()` as used by f-string interpolation: identical to `repr`
except that strings are rendered without quotes. -/
def pyStr : JSON → String
  | .str s => s
  | j => pyRepr j

/-- Characters removed by Python's `str.strip()` (ASCII whitespace;
the exotic Unicode space classes are not modelled, no claim uses them). -/
def isPySpace (c : Char) : Bool :=
  c = ' ' || c = '\t' || c = '\n' || c = '\x0b' || c = '\x0c' || c = '\r'

/-- Python `s.strip()`: drop leading and trailing whitespace. -/
def pyStrip (s : String) : String :=
  String.mk (((s.toList.dropWhile isPySpace).reverse.dropWhile isPySpace).reverse)

/-- Outcome of the single `requests.get` against the Koyeb endpoint:
a response with its status code and reason phrase, a timeout
(`requests.Timeout`), or another network-level fault
(`requests.RequestException` with its `str(e)`). -/
inductive HttpResult where
  | response (status : Nat) (reason : String) : HttpResult
  | timeout : HttpResult
  | netError (msg : String) : HttpResult
deriving DecidableEq, Repr

/-- The fixed URL of the credential check (`GET /v1/apps`). -/
def koyebURL : String := "https://app.koyeb.com/v1/apps"

/-- `str(requests.HTTPError)` produced by `response.raise_for_status()` for
an error status: requests formats
`f"{code} Client Error: {reason} for url: {url}"` for 4xx and
`Server Error` for 5xx. -/
def httpErrorMsg (status : Nat) (reason url : String) : String :=
  if status < 500 then
    toString status ++ " Client Error: " ++ reason ++ " for url: " ++ url
  else
    toString status ++ " Server Error: " ++ reason ++ " for url: " ++ url

/-- `response.raise_for_status()` raises `requests.HTTPError` exactly for
status codes in 400..599. -/
def raisesForStatus (status : Nat) : Bool :=
  400 ≤ status && status < 600

/-- `check_koyeb_with_token(name, token)` from `src/koyeb.py`: returns
`(success, detail)`.  The `net` parameter gives the outcome of the one
`requests.get` for a given token (URL and headers are fixed).  The
function catches `requests.Timeout` and `requests.RequestException`, so it
never raises. -/
def check_koyeb_with_token (net : String → HttpResult) (_name token : String) :
    Bool × String :=
  if token = "" then
    (false, "Token 为空")
  else
    match net token with
    | .response status reason =>
        if raisesForStatus status then
          (false, httpErrorMsg status reason koyebURL)
        else
          (true, "Token 校验成功")
    | .timeout => (false, "请求超时")
    | .netError msg => (false, msg)

/-- The process environment read by the script:
`KOYEB_ACCOUNTS`, `TG_BOT_TOKEN`, `TG_CHAT_ID` (`os.getenv` gives `None`
for an unset variable, modelled as `none`). -/
structure Env where
  koyebAccounts : Option String
  tgBotToken : Option String
  tgChatId : Option String

/-- Python truthiness of an `os.getenv` result: `None` and `""` are falsy. -/
def truthyStrOpt : Option String → Bool
  | none => false
  | some s => s ≠ ""

/-- Observable side effects of one run, in order of occurrence. -/
inductive Event where
  | get (token : String) : Event
  | sleep (seconds : Nat) : Event
  | tgCall (message : String) : Event
  | tgPost (botToken chatId message : String) : Event
deriving DecidableEq, Repr

/-- `send_tg_message(message)` from `src/koyeb.py`, as the events it emits:
the call itself is recorded as `tgCall`; when both `TG_BOT_TOKEN` and
`TG_CHAT_ID` are truthy it performs one HTTP POST (`tgPost`), whose
delivery failure is caught and only logged; otherwise it logs a warning
and returns.  The function never raises. -/
def send_tg_message (env : Env) (message : String) : List Event :=
  if truthyStrOpt env.tgBotToken && truthyStrOpt env.tgChatId then
    [Event.tgCall message,
     Event.tgPost (env.tgBotToken.getD "") (env.tgChatId.getD "") message]
  else
    [Event.tgCall message]

/-- `validate_env_variables()` from `src/koyeb.py`.  `parse` stands for
`json.loads`; `none` models `json.JSONDecodeError`.  Errors carry
`str(ValueError)`. -/
def validate_env_variables (env : Env) (parse : String → Option JSON) :
    Except String JSON :=
  match env.koyebAccounts with
  | none => .error "❌ KOYEB_ACCOUNTS 环境变量未设置或格式错误"
  | some s =>
      if s = "" then .error "❌ KOYEB_ACCOUNTS 环境变量未设置或格式错误"
      else
        match parse s with
        | none => .error "❌ KOYEB_ACCOUNTS JSON 格式无效"
        | some j => .ok j

/-- Python iteration `for account in koyeb_accounts`: lists yield their
elements, dicts their keys, strings their characters; other values raise
`TypeError`. -/
def pyIter (j : JSON) : Except String (List JSON) :=
  match j with
  | .arr xs => .ok xs
  | .obj kvs => .ok (kvs.map (fun kv => JSON.str kv.1))
  | .str s => .ok (s.toList.map (fun c => JSON.str (String.singleton c)))
  | _ => .error ("'" ++ j.typeName ++ "' object is not iterable")

/-- The `or account.get("email") or "未命名账号"` tail of the name
expression: the email value when truthy, else the default label. -/
def nameFromEmail (a : JSON) : Except String String :=
  match pyGetOpt a "email" with
  | .error e => .error e
  | .ok (some v) => if v.truthy then .ok (pyStr v) else .ok "未命名账号"
  | .ok none => .ok "未命名账号"

/-- `account.get("name") or account.get("email") or "未命名账号"`, rendered by
the f-string: the first truthy of the two lookups, else the default. -/
def displayName (a : JSON) : Except String String :=
  match pyGetOpt a "name" with
  | .error e => .error e
  | .ok (some v) => if v.truthy then .ok (pyStr v) else nameFromEmail a
  | .ok none => nameFromEmail a

/-- `account.get("token", "").strip()`: the default `""` when the key is
absent, `AttributeError` when the receiver is not a dict or the stored
value is not a string. -/
def tokenOf (a : JSON) : Except String String :=
  match pyGetOpt a "token" with
  | .error e => .error e
  | .ok none => .ok (pyStrip "")
  | .ok (some (.str s)) => .ok (pyStrip s)
  | .ok (some v) => .error (noAttrMsg v "strip")

/-- The skipped-account result line `f"⚠️ 账户: {name}\nToken 未配置，跳过"`. -/
def skippedLine (name : String) : String :=
  "⚠️ 账户: " ++ name ++ "\nToken 未配置，跳过"

/-- The per-check result line appended to `messages`. -/
def resultLine (name : String) (success : Bool) (message : String) : String :=
  if success then
    "✅ 账户: " ++ name ++ " Token 校验成功"
  else
    "❌ 账户: " ++ name ++ " Token 校验失败 | 原因: " ++ message

/-- One iteration of the `for account in koyeb_accounts` loop body:
either the exception that aborts the loop, or the events emitted and the
line appended to `messages`.  A skipped account (empty stripped token)
emits no event and `continue`s before the `time.sleep(5)`; a checked
account performs the GET and then sleeps 5 seconds. -/
def accountStep (net : String → HttpResult) (a : JSON) :
    Except String (List Event × String) :=
  match displayName a with
  | .error e => .error e
  | .ok name =>
      match tokenOf a with
      | .error e => .error e
      | .ok token =>
          if token = "" then
            .ok ([], skippedLine name)
          else
            let r := check_koyeb_with_token net name token
            .ok ([Event.get token, Event.sleep 5],
                 resultLine name r.1 r.2)

/-- The whole `for` loop: events emitted, the `messages` list, and the
exception (if any) that aborted the remaining iteration.  On an abort the
lines collected so far are abandoned (the error path does not use
`messages`) but the events already emitted stand. -/
def runLoop (net : String → HttpResult) :
    List JSON → List Event × List String × Option String
  | [] => ([], [], none)
  | a :: rest =>
      match accountStep net a with
      | .error e => ([], [], some e)
      | .ok st =>
          let rl := runLoop net rest
          (st.1 ++ rl.1, st.2 :: rl.2.1, rl.2.2)

/-- Civil date (year, month, day) from a count of days since 1970-01-01,
following the standard proleptic-Gregorian conversion used by
`datetime`. -/
def civilFromDays (z0 : Nat) : Nat × Nat × Nat :=
  let z := z0 + 719468
  let era := z / 146097
  let doe := z % 146097
  let yoe := (doe - doe / 1460 + doe / 36524 - doe / 146096) / 365
  let y := yoe + era * 400
  let doy := doe - (365 * yoe + yoe / 4 - yoe / 100)
  let mp := (5 * doy + 2) / 153
  let d := doy - (153 * mp + 2) / 5 + 1
  let m := if mp < 10 then mp + 3 else mp - 9
  (if m ≤ 2 then y + 1 else y, m, d)

/-- Zero-pad to two digits (`%m`, `%d`, `%H`, `%M`). -/
def pad2 (n : Nat) : String :=
  if n < 10 then "0" ++ toString n else toString n

/-- Zero-pad to four digits (`%Y`). -/
def pad4 (n : Nat) : String :=
  if n < 10 then "000" ++ toString n
  else if n < 100 then "00" ++ toString n
  else if n < 1000 then "0" ++ toString n
  else toString n

/-- `datetime.strftime("%Y-%m-%d %H:%M")` on a time given as seconds since
the epoch. -/
def strftimeYMDHM (secs : Nat) : String :=
  let (y, m, d) := civilFromDays (secs / 86400)
  pad4 y ++ "-" ++ pad2 m ++ "-" ++ pad2 d ++ " " ++
    pad2 (secs % 86400 / 3600) ++ ":" ++ pad2 (secs % 3600 / 60)

/-- `(datetime.utcnow() + timedelta(hours=8)).strftime("%Y-%m-%d %H:%M")`:
Beijing time (UTC+8) of the start of the run. -/
def beijingTime (utcnow : Nat) : String :=
  strftimeYMDHM (utcnow + 8 * 3600)

/-- The summary string built on the normal path. -/
def summaryOf (currentTime : String) (messages : List String) : String :=
  "⏰ 北京时间: " ++ currentTime ++ "\n\n" ++
    String.intercalate "\n" messages ++ "\n\n✅ 任务执行完成"

/-- The whole external world one run observes: the environment, the
behaviour of `json.loads` on the configured string, the network's answer
to the credential GET per token, and `datetime.utcnow()` as seconds since
the epoch. -/
structure World where
  env : Env
  parse : String → Option JSON
  net : String → HttpResult
  utcnow : Nat

/-- The `try` block of `main()`: either the events of a completed normal
path, or the events emitted before an exception together with
`str(e)`. -/
def mainTry (w : World) : Except (List Event × String) (List Event) :=
  match validate_env_variables w.env w.parse with
  | .error e => .error ([], e)
  | .ok accounts =>
      if accounts.truthy = false then
        .error ([], "❌ 没有找到有效的 Koyeb 账户信息")
      else
        match pyIter accounts with
        | .error e => .error ([], e)
        | .ok items =>
            match (runLoop w.net items).2.2 with
            | some e => .error ((runLoop w.net items).1, e)
            | none =>
                .ok ((runLoop w.net items).1 ++
                  send_tg_message w.env
                    (summaryOf (beijingTime w.utcnow) (runLoop w.net items).2.1))

/-- `main()` from `src/koyeb.py`: the full event trace of one run.  The
`except` clause turns any exception into the single error notification
`f"❌ 脚本执行出错: {e}"`. -/
def mainRun (w : World) : List Event :=
  match mainTry w with
  | .ok evs => evs
  | .error (evs, e) => evs ++ send_tg_message w.env ("❌ 脚本执行出错: " ++ e)

/-- Is an event a call to `send_tg_message` (a notification)? -/
def Event.isTgCall : Event → Bool
  | .tgCall _ => true
  | _ => false

/-- Is an event the credential-check HTTP GET? -/
def Event.isGet : Event → Bool
  | .get _ => true
  | _ => false

/-- Is an event the outbound Telegram HTTP POST? -/
def Event.isTgPost : Event → Bool
  | .tgPost _ _ _ => true
  | _ => false

/-- "Every credential-check GET is immediately followed by a 5-second
sleep": the trace-level reading of the fixed inter-check delay. -/
def sleepAfterGet (l : List Event) : Prop :=
  ∀ i t, l[i]? = some (Event.get t) → l[i + 1]? = some (Event.sleep 5)

/-- Concrete fixture: an account with a usable token. -/
def sampleAccount : JSON := JSON.obj [("name", JSON.str "a"), ("token", JSON.str "t")]

/-- Concrete fixture: an account with an empty token. -/
def sampleSkipped : JSON := JSON.obj [("name", JSON.str "b"), ("token", JSON.str "")]

/-- Concrete fixture: a network where every check answers 200 OK. -/
def sampleNet : String → HttpResult := fun _ => HttpResult.response 200 "OK"

/-- Concrete fixture: a fully configured world with one checked and one
skipped account. -/
def worldOk : World :=
  { env := { koyebAccounts := some "cfg", tgBotToken := some "B", tgChatId := some "C" },
    parse := fun _ => some (JSON.arr [sampleAccount, sampleSkipped]),
    net := sampleNet, utcnow := 0 }

/-- Concrete fixture: `KOYEB_ACCOUNTS` unset. -/
def worldNoConfig : World :=
  { env := { koyebAccounts := none, tgBotToken := some "B", tgChatId := some "C" },
    parse := fun _ => none, net := sampleNet, utcnow := 0 }

/-- Concrete fixture: the variable holds `"[]"`, which parses to an empty
(falsy) list. -/
def worldFalsy : World :=
  { env := { koyebAccounts := some "[]", tgBotToken := some "B", tgChatId := some "C" },
    parse := fun _ => some (JSON.arr []), net := sampleNet, utcnow := 0 }

/-- Concrete fixture: Telegram credentials missing. -/
def worldNoCreds : World :=
  { env := { koyebAccounts := some "cfg", tgBotToken := none, tgChatId := some "C" },
    parse := fun _ => some (JSON.arr [sampleAccount]),
    net := sampleNet, utcnow := 0 }

/-- The events of one loop iteration: none for a skipped account, a GET
followed by the 5-second sleep for a checked one. -/
theorem accountStep_shape (net : String → HttpResult) (a : JSON)
    (evs : List Event) (line : String)
    (h : accountStep net a = .ok (evs, line)) :
    evs = [] ∨ ∃ t, evs = [Event.get t, Event.sleep 5] := by
  unfold accountStep at h
  split at h
  · exact absurd h (by simp)
  · split at h
    · exact absurd h (by simp)
    · split at h
      · simp only [Except.ok.injEq, Prod.mk.injEq] at h
        exact Or.inl h.1.symm
      · simp only [Except.ok.injEq, Prod.mk.injEq] at h
        exact Or.inr ⟨_, h.1.symm⟩

/-- Every event the loop emits is a credential GET or the 5-second
sleep. -/
theorem runLoop_events_getOrSleep (net : String → HttpResult)
    (items : List JSON) :
    ∀ e ∈ (runLoop net items).1, (∃ t, e = Event.get t) ∨ e = Event.sleep 5 := by
  induction items with
  | nil => intro e he; simp [runLoop] at he
  | cons a rest ih =>
      intro e he
      rw [runLoop] at he
      cases hs : accountStep net a with
      | error e' => rw [hs] at he; simp at he
      | ok st =>
          rw [hs] at he
          simp only [List.mem_append] at he
          rcases he with he | he
          · rcases accountStep_shape net a st.1 st.2 (by rw [hs]) with h0 | ⟨t, h2⟩
            · rw [h0] at he; simp at he
            · rw [h2] at he
              simp only [List.mem_cons, List.mem_singleton] at he
              rcases he with rfl | rfl | h
              · exact Or.inl ⟨t, rfl⟩
              · exact Or.inr rfl
              · simp at h
          · exact ih e he

/-- A completed loop produced exactly one result line per input item, in
input order. -/
theorem runLoop_complete (net : String → HttpResult) (items : List JSON)
    (evs : List Event) (msgs : List String)
    (h : runLoop net items = (evs, msgs, none)) :
    msgs.length = items.length ∧
      ∀ i, (hi : i < items.length) →
        ∃ ea line, accountStep net items[i] = .ok (ea, line) ∧
          msgs[i]? = some line := by
  induction items generalizing evs msgs with
  | nil =>
      simp only [runLoop, Prod.mk.injEq] at h
      refine ⟨?_, ?_⟩
      · rw [← h.2.1]; rfl
      · intro i hi; simp at hi
  | cons a rest ih =>
      rw [runLoop] at h
      cases hs : accountStep net a with
      | error e => rw [hs] at h; simp at h
      | ok st =>
          rw [hs] at h
          simp only [Prod.mk.injEq] at h
          obtain ⟨h1, h2, h3⟩ := h
          have hr : runLoop net rest = ((runLoop net rest).1, (runLoop net rest).2.1, none) := by
            rw [← h3]
          obtain ⟨ihlen, ihidx⟩ := ih (runLoop net rest).1 (runLoop net rest).2.1 hr
          constructor
          · rw [← h2]; simp [ihlen]
          · intro i hi
            cases i with
            | zero =>
                refine ⟨st.1, st.2, ?_, ?_⟩
                · simp only [List.getElem_cons_zero]; rw [hs]
                · rw [← h2]; simp
            | succ n =>
                have hn : n < rest.length := by
                  simpa using Nat.lt_of_succ_lt_succ hi
                obtain ⟨ea, line, hstep, hline⟩ := ihidx n hn
                refine ⟨ea, line, ?_, ?_⟩
                · simpa using hstep
                · rw [← h2]; simpa using hline

/-- `send_tg_message` is invoked exactly once per call site: it records
one notification call. -/
theorem send_tg_count (env : Env) (m : String) :
    (send_tg_message env m).countP Event.isTgCall = 1 := by
  unfold send_tg_message
  split <;> simp [Event.isTgCall]

/-- `send_tg_message` never performs the credential GET. -/
theorem send_tg_no_get (env : Env) (m : String) :
    ∀ e ∈ send_tg_message env m, e.isGet = false := by
  unfold send_tg_message
  split <;> intro e he <;> simp at he
  · rcases he with rfl | rfl <;> rfl
  · rw [he]; rfl

/-- Without both Telegram credentials, `send_tg_message` only logs: the
call happens but no POST is issued. -/
theorem send_tg_no_creds (env : Env) (m : String)
    (h : truthyStrOpt env.tgBotToken = false ∨ truthyStrOpt env.tgChatId = false) :
    send_tg_message env m = [Event.tgCall m] := by
  unfold send_tg_message
  rcases h with h | h <;> rw [h] <;> simp

/-- Decomposition of a completed normal path: the config was accepted and
truthy, the loop finished without an exception, and the trace is the loop
events followed by the one summary notification. -/
theorem mainTry_ok_decomp (w : World) (evs : List Event)
    (h : mainTry w = .ok evs) :
    ∃ accounts items, validate_env_variables w.env w.parse = .ok accounts ∧
      accounts.truthy = true ∧ pyIter accounts = .ok items ∧
      (runLoop w.net items).2.2 = none ∧
      evs = (runLoop w.net items).1 ++
        send_tg_message w.env
          (summaryOf (beijingTime w.utcnow) (runLoop w.net items).2.1) := by
  unfold mainTry at h
  split at h
  · exact absurd h (by simp)
  next accounts hv =>
    split at h
    · exact absurd h (by simp)
    next htr =>
      have htrue : accounts.truthy = true := by
        revert htr; cases accounts.truthy <;> simp
      split at h
      · exact absurd h (by simp)
      next items hit =>
        split at h
        · exact absurd h (by simp)
        next hnone =>
          simp only [Except.ok.injEq] at h
          exact ⟨accounts, items, hv, htrue, hit, hnone, h.symm⟩

/-- On the error path the events emitted before the exception are either
none (configuration faults) or the events of a prefix of the loop. -/
theorem mainTry_error_shape (w : World) (p : List Event × String)
    (h : mainTry w = .error p) :
    p.1 = [] ∨ ∃ items, p.1 = (runLoop w.net items).1 := by
  unfold mainTry at h
  split at h
  · simp only [Except.error.injEq] at h
    exact Or.inl (by rw [← h])
  next accounts hv =>
    split at h
    · simp only [Except.error.injEq] at h
      exact Or.inl (by rw [← h])
    next htr =>
      split at h
      · simp only [Except.error.injEq] at h
        exact Or.inl (by rw [← h])
      next items hit =>
        split at h
        · simp only [Except.error.injEq] at h
          exact Or.inr ⟨items, by rw [← h]⟩
        · exact absurd h (by simp)

/-- The loop never calls `send_tg_message`. -/
theorem runLoop_no_tgCall (net : String → HttpResult) (items : List JSON) :
    (runLoop net items).1.countP Event.isTgCall = 0 := by
  rw [List.countP_eq_zero]
  intro e he
  rcases runLoop_events_getOrSleep net items e he with ⟨t, rfl⟩ | rfl <;> simp [Event.isTgCall]

/-- The loop never performs a Telegram POST. -/
theorem runLoop_no_tgPost (net : String → HttpResult) (items : List JSON) :
    (runLoop net items).1.countP Event.isTgPost = 0 := by
  rw [List.countP_eq_zero]
  intro e he
  rcases runLoop_events_getOrSleep net items e he with ⟨t, rfl⟩ | rfl <;> simp [Event.isTgPost]

/-- A configuration fault makes `main`'s `try` block abort before any
loop event. -/
theorem mainTry_config_error (w : World) (e : String)
    (hv : validate_env_variables w.env w.parse = .error e) :
    mainTry w = .error ([], e) := by
  unfold mainTry; rw [hv]

/-- C5: In every run, the orchestrator issues exactly one notification —
either the summary on the normal path or a single error line on the error
path — never zero and never more than one. -/
theorem orchestrator_sends_exactly_one_notification (w : World) :
    (mainRun w).countP Event.isTgCall = 1 := by
  unfold mainRun
  cases h : mainTry w with
  | ok evs =>
      obtain ⟨acc, items, hv, ht, hit, hn, heq⟩ := mainTry_ok_decomp w evs h
      rw [heq, List.countP_append, runLoop_no_tgCall, send_tg_count]
  | error p =>
      obtain ⟨evs, e⟩ := p
      show (evs ++ send_tg_message w.env ("❌ 脚本执行出错: " ++ e)).countP
        Event.isTgCall = 1
      rw [List.countP_append, send_tg_count]
      rcases mainTry_error_shape w (evs, e) h with h0 | ⟨items, hitems⟩
      · simp only at h0; rw [h0]; rfl
      · simp only at hitems; rw [hitems, runLoop_no_tgCall]

/-- C3: If the configuration environment variable is unset, empty, or does
not parse as JSON, the run raises a `ConfigError` (`ValueError` in the
script), performs zero account checks, and sends exactly one error
notification embedding the fault's description. -/
theorem config_fault_aborts_run (w : World)
    (h : w.env.koyebAccounts = none ∨ w.env.koyebAccounts = some "" ∨
         ∃ s, w.env.koyebAccounts = some s ∧ s ≠ "" ∧ w.parse s = none) :
    ∃ e, validate_env_variables w.env w.parse = .error e ∧
      mainRun w = send_tg_message w.env ("❌ 脚本执行出错: " ++ e) ∧
      (mainRun w).countP Event.isGet = 0 ∧
      (mainRun w).countP Event.isTgCall = 1 := by
  have hv : ∃ e, validate_env_variables w.env w.parse = .error e := by
    rcases h with h | h | ⟨s, hs, hne, hp⟩
    · exact ⟨"❌ KOYEB_ACCOUNTS 环境变量未设置或格式错误",
        by unfold validate_env_variables; rw [h]⟩
    · exact ⟨"❌ KOYEB_ACCOUNTS 环境变量未设置或格式错误",
        by unfold validate_env_variables; rw [h]; rfl⟩
    · refine ⟨"❌ KOYEB_ACCOUNTS JSON 格式无效", ?_⟩
      unfold validate_env_variables
      rw [hs]
      show (if s = "" then _ else _) = _
      rw [if_neg hne, hp]
  obtain ⟨e, hv⟩ := hv
  have hrun : mainRun w = send_tg_message w.env ("❌ 脚本执行出错: " ++ e) := by
    unfold mainRun
    rw [mainTry_config_error w e hv]
    exact List.nil_append _
  refine ⟨e, hv, hrun, ?_, ?_⟩
  · rw [hrun, List.countP_eq_zero]
    intro ev hev
    simp [send_tg_no_get w.env _ ev hev]
  · rw [hrun, send_tg_count]

/-- C9: If the configuration variable parses as valid JSON but yields a
falsy value (empty list, `null`, `false`, `0`, `""`, `{}`), the run takes
the error path: the loader accepts the value, yet zero account checks run
and a single error notification is sent. -/
theorem falsy_config_takes_error_path (w : World) (s : String) (j : JSON)
    (hk : w.env.koyebAccounts = some s) (hne : s ≠ "") (hp : w.parse s = some j)
    (ht : j.truthy = false) :
    validate_env_variables w.env w.parse = .ok j ∧
    mainRun w =
      send_tg_message w.env "❌ 脚本执行出错: ❌ 没有找到有效的 Koyeb 账户信息" ∧
    (mainRun w).countP Event.isGet = 0 ∧
    (mainRun w).countP Event.isTgCall = 1 := by
  have hv : validate_env_variables w.env w.parse = .ok j := by
    unfold validate_env_variables
    rw [hk]
    show (if s = "" then _ else _) = _
    rw [if_neg hne, hp]
  have hmt : mainTry w = .error ([], "❌ 没有找到有效的 Koyeb 账户信息") := by
    unfold mainTry
    rw [hv]
    split
    next e heq => exact absurd heq (by simp)
    next accounts heq =>
      have hacc : j = accounts := by injection heq
      subst hacc
      rw [if_pos ht]
  have hrun : mainRun w =
      send_tg_message w.env "❌ 脚本执行出错: ❌ 没有找到有效的 Koyeb 账户信息" := by
    unfold mainRun
    rw [hmt]
    exact List.nil_append _
  refine ⟨hv, hrun, ?_, ?_⟩
  · rw [hrun, List.countP_eq_zero]
    intro ev hev
    simp [send_tg_no_get w.env _ ev hev]
  · rw [hrun, send_tg_count]

/-- C1: For every input account list that the run processes to completion,
the summary contains exactly one result line per input account, and the
order of result lines matches the order of the accounts in the input
list. -/
theorem summary_one_line_per_account (w : World) (evs : List Event)
    (h : mainTry w = .ok evs) :
    ∃ accounts items,
      validate_env_variables w.env w.parse = .ok accounts ∧
      pyIter accounts = .ok items ∧
      (runLoop w.net items).2.1.length = items.length ∧
      (∀ i, (hi : i < items.length) →
        ∃ ea line, accountStep w.net items[i] = .ok (ea, line) ∧
          (runLoop w.net items).2.1[i]? = some line) ∧
      evs = (runLoop w.net items).1 ++
        send_tg_message w.env
          (summaryOf (beijingTime w.utcnow) (runLoop w.net items).2.1) := by
  obtain ⟨accounts, items, hv, htr, hit, hnone, heq⟩ := mainTry_ok_decomp w evs h
  have hr : runLoop w.net items =
      ((runLoop w.net items).1, (runLoop w.net items).2.1, none) := by
    rw [← hnone]
  obtain ⟨hlen, hidx⟩ :=
    runLoop_complete w.net items (runLoop w.net items).1 (runLoop w.net items).2.1 hr
  exact ⟨accounts, items, hv, hit, hlen, hidx, heq⟩

/-- C7: The summary message sent on the normal path is a fixed header line
containing the current time in a fixed UTC+8 offset formatted as
`YYYY-MM-DD HH:MM`, followed by one line per account result in order,
followed by a fixed completion line. -/
theorem summary_message_format (w : World) (evs : List Event)
    (h : mainTry w = .ok evs) :
    ∃ accounts items,
      validate_env_variables w.env w.parse = .ok accounts ∧
      pyIter accounts = .ok items ∧
      (runLoop w.net items).2.1.length = items.length ∧
      evs = (runLoop w.net items).1 ++
        send_tg_message w.env
          ("⏰ 北京时间: " ++ strftimeYMDHM (w.utcnow + 8 * 3600) ++ "\n\n" ++
            String.intercalate "\n" (runLoop w.net items).2.1 ++
            "\n\n✅ 任务执行完成") := by
  obtain ⟨accounts, items, hv, htr, hit, hnone, heq⟩ := mainTry_ok_decomp w evs h
  have hr : runLoop w.net items =
      ((runLoop w.net items).1, (runLoop w.net items).2.1, none) := by
    rw [← hnone]
  obtain ⟨hlen, -⟩ :=
    runLoop_complete w.net items (runLoop w.net items).1 (runLoop w.net items).2.1 hr
  exact ⟨accounts, items, hv, hit, hlen, heq⟩

/-- C4: An account whose (stripped) token is empty is skipped: its loop
iteration issues no network request, records the not-configured line, and
processing of the remaining accounts continues unchanged. -/
theorem empty_token_account_skipped (net : String → HttpResult) (a : JSON)
    (rest : List JSON) (name : String)
    (hn : displayName a = .ok name) (ht : tokenOf a = .ok "") :
    accountStep net a = .ok ([], "⚠️ 账户: " ++ name ++ "\nToken 未配置，跳过") ∧
    runLoop net (a :: rest) =
      ((runLoop net rest).1,
       ("⚠️ 账户: " ++ name ++ "\nToken 未配置，跳过") :: (runLoop net rest).2.1,
       (runLoop net rest).2.2) := by
  have hstep : accountStep net a = .ok ([], skippedLine name) := by
    unfold accountStep
    rw [hn, ht]
    rfl
  refine ⟨hstep, ?_⟩
  rw [runLoop, hstep]
  rfl

/-- `str.strip()` of an all-whitespace string is empty. -/
theorem pyStrip_all_space (s : String) (hs : ∀ c ∈ s.toList, isPySpace c) :
    pyStrip s = "" := by
  unfold pyStrip
  rw [List.dropWhile_eq_nil_iff.mpr hs]
  rfl

/-- C10: The token is stripped of whitespace before the emptiness test, so
an account whose token is all-whitespace is treated exactly like one with
an empty token: skipped with the not-configured line, no network
request. -/
theorem whitespace_token_like_empty (net : String → HttpResult)
    (kvs : List (String × JSON)) (name s : String)
    (hn : displayName (JSON.obj kvs) = .ok name)
    (hl : lookupKV kvs "token" = some (JSON.str s))
    (hs : ∀ c ∈ s.toList, isPySpace c) :
    tokenOf (JSON.obj kvs) = .ok "" ∧
    accountStep net (JSON.obj kvs) =
      .ok ([], "⚠️ 账户: " ++ name ++ "\nToken 未配置，跳过") := by
  have htok : tokenOf (JSON.obj kvs) = .ok "" := by
    have h2 : pyGetOpt (JSON.obj kvs) "token" = .ok (some (JSON.str s)) := by
      simp only [pyGetOpt]
      rw [hl]
    have h1 : tokenOf (JSON.obj kvs) = .ok (pyStrip s) := by
      unfold tokenOf
      rw [h2]
    rw [h1, pyStrip_all_space s hs]
  refine ⟨htok, ?_⟩
  unfold accountStep
  rw [hn, htok]
  rfl

/-- C2 counterexample: a 304 Not Modified response (which
`raise_for_status` does not raise on) is classified a success although it
is not a 2xx status, so "success occurs exactly for 2xx responses" fails
on the code. -/
theorem check_success_on_304_not_2xx :
    (check_koyeb_with_token (fun _ => HttpResult.response 304 "Not Modified")
        "acct" "tok").1 = true ∧ ¬(200 ≤ 304 ∧ 304 < 300) := by
  exact ⟨rfl, by decide⟩

/-- C2 (amended): for a non-empty token, a 2xx response is classified
success with the fixed success detail; any 4xx/5xx response is classified
failure with the status text leading the detail unmodified; and success
occurs exactly for responses whose status is outside 400..599. -/
theorem check_classification (name token reason : String) (status : Nat)
    (h : token ≠ "") :
    (200 ≤ status ∧ status < 300 →
      check_koyeb_with_token (fun _ => HttpResult.response status reason) name token
        = (true, "Token 校验成功")) ∧
    (400 ≤ status ∧ status < 600 →
      (check_koyeb_with_token (fun _ => HttpResult.response status reason) name token).1
          = false ∧
      ∃ rest,
        (check_koyeb_with_token (fun _ => HttpResult.response status reason) name token).2
          = toString status ++ rest) ∧
    ((check_koyeb_with_token (fun _ => HttpResult.response status reason) name token).1
        = true ↔ ¬(400 ≤ status ∧ status < 600)) := by
  have hc : check_koyeb_with_token (fun _ => HttpResult.response status reason) name token
      = if raisesForStatus status then (false, httpErrorMsg status reason koyebURL)
        else (true, "Token 校验成功") := by
    unfold check_koyeb_with_token
    rw [if_neg h]
  have hrs : (raisesForStatus status = true) ↔ (400 ≤ status ∧ status < 600) := by
    simp [raisesForStatus]
  by_cases hb : 400 ≤ status ∧ status < 600
  · rw [hc, if_pos (hrs.mpr hb)]
    refine ⟨?_, ?_, ?_⟩
    · intro h2; omega
    · intro h45
      refine ⟨rfl, ?_⟩
      unfold httpErrorMsg
      split
      · exact ⟨" Client Error: " ++ reason ++ " for url: " ++ koyebURL,
          by simp [String.append_assoc]⟩
      · exact ⟨" Server Error: " ++ reason ++ " for url: " ++ koyebURL,
          by simp [String.append_assoc]⟩
    · simp [hb]
  · have hfalse : raisesForStatus status = false := by
      cases hx : raisesForStatus status
      · rfl
      · exact absurd (hrs.mp hx) hb
    rw [hc, if_neg (by simp [hfalse])]
    refine ⟨fun _ => rfl, ?_, ?_⟩
    · intro h45; exact absurd h45 hb
    · simp [hb]

/-- C6: Without both Telegram credentials the notification call performs
no outbound POST (it only logs) and the run completes with no POST event
in its trace. -/
theorem missing_creds_no_post (w : World) (m : String)
    (h : truthyStrOpt w.env.tgBotToken = false ∨
         truthyStrOpt w.env.tgChatId = false) :
    send_tg_message w.env m = [Event.tgCall m] ∧
    (mainRun w).countP Event.isTgPost = 0 := by
  refine ⟨send_tg_no_creds w.env m h, ?_⟩
  have hsend : ∀ m', (send_tg_message w.env m').countP Event.isTgPost = 0 := by
    intro m'
    rw [send_tg_no_creds w.env m' h]
    rfl
  unfold mainRun
  cases hm : mainTry w with
  | ok evs =>
      obtain ⟨acc, items, hv, htr, hit, hnone, heq⟩ := mainTry_ok_decomp w evs hm
      rw [heq, List.countP_append, runLoop_no_tgPost, hsend]
  | error p =>
      obtain ⟨evs, e⟩ := p
      show (evs ++ send_tg_message w.env ("❌ 脚本执行出错: " ++ e)).countP
        Event.isTgPost = 0
      rw [List.countP_append, hsend]
      rcases mainTry_error_shape w (evs, e) hm with h0 | ⟨items, hitems⟩
      · simp only at h0; rw [h0]; rfl
      · simp only at hitems; rw [hitems, runLoop_no_tgPost]

/-- A trace without GET events vacuously has the sleep-after-GET shape. -/
theorem sleepAfterGet_of_no_get (l : List Event)
    (h : ∀ e ∈ l, e.isGet = false) : sleepAfterGet l := by
  intro i t hit
  exfalso
  have hmem : Event.get t ∈ l := by
    obtain ⟨hl, he⟩ := List.getElem?_eq_some.mp hit
    rw [← he]
    exact List.getElem_mem hl
  simpa [Event.isGet] using h _ hmem

/-- Prepending a `GET`-then-`sleep 5` block preserves the sleep-after-GET
shape. -/
theorem sleepAfterGet_block (t : String) (l : List Event)
    (h : sleepAfterGet l) :
    sleepAfterGet (Event.get t :: Event.sleep 5 :: l) := by
  intro i t' hit
  cases i with
  | zero => simp
  | succ n =>
      cases n with
      | zero => simp at hit
      | succ m =>
          simp only [List.getElem?_cons_succ] at hit ⊢
          exact h m t' hit

/-- The loop events, followed by any sleep-after-GET suffix, have the
sleep-after-GET shape: every check is followed by the fixed delay. -/
theorem runLoop_sleepAfterGet (net : String → HttpResult) (items : List JSON)
    (suffix : List Event) (h : sleepAfterGet suffix) :
    sleepAfterGet ((runLoop net items).1 ++ suffix) := by
  induction items with
  | nil => exact h
  | cons a rest ih =>
      rw [runLoop]
      cases hs : accountStep net a with
      | error e => exact h
      | ok st =>
          show sleepAfterGet ((st.1 ++ (runLoop net rest).1) ++ suffix)
          rcases accountStep_shape net a st.1 st.2 (by rw [hs]) with h0 | ⟨t, h2⟩
          · rw [h0]
            exact ih
          · rw [h2, List.append_assoc]
            exact sleepAfterGet_block t _ ih

/-- C8: In every run, each credential check is immediately followed by the
fixed 5-second pause, so between successive checks — whatever the prior
outcome, and also before a following skipped account — the orchestrator
pauses exactly 5 time units. -/
theorem fixed_delay_after_each_check (w : World) (i : Nat) (t : String)
    (h : (mainRun w)[i]? = some (Event.get t)) :
    (mainRun w)[i + 1]? = some (Event.sleep 5) := by
  have hsag : sleepAfterGet (mainRun w) := by
    unfold mainRun
    cases hm : mainTry w with
    | ok evs =>
        show sleepAfterGet evs
        obtain ⟨acc, items, hv, htr, hit, hnone, heq⟩ := mainTry_ok_decomp w evs hm
        rw [heq]
        exact runLoop_sleepAfterGet w.net items _
          (sleepAfterGet_of_no_get _ (send_tg_no_get w.env _))
    | error p =>
        obtain ⟨evs, e⟩ := p
        show sleepAfterGet (evs ++ send_tg_message w.env ("❌ 脚本执行出错: " ++ e))
        have hsend : sleepAfterGet (send_tg_message w.env ("❌ 脚本执行出错: " ++ e)) :=
          sleepAfterGet_of_no_get _ (send_tg_no_get w.env _)
        rcases mainTry_error_shape w (evs, e) hm with h0 | ⟨items, hitems⟩
        · simp only at h0
          rw [h0]
          simpa using hsend
        · simp only at hitems
          rw [hitems]
          exact runLoop_sleepAfterGet w.net items _ hsend
  exact hsag i t h

/-- Closed instance of the C1 theorem on the two-account fixture. -/
theorem summary_one_line_per_account_witness :
    ∃ accounts items,
      validate_env_variables worldOk.env worldOk.parse = .ok accounts ∧
      pyIter accounts = .ok items ∧
      (runLoop worldOk.net items).2.1.length = items.length ∧
      (∀ i, (hi : i < items.length) →
        ∃ ea line, accountStep worldOk.net items[i] = .ok (ea, line) ∧
          (runLoop worldOk.net items).2.1[i]? = some line) ∧
      mainRun worldOk = (runLoop worldOk.net items).1 ++
        send_tg_message worldOk.env
          (summaryOf (beijingTime worldOk.utcnow) (runLoop worldOk.net items).2.1) :=
  summary_one_line_per_account worldOk (mainRun worldOk) rfl

/-- Closed instance of the amended C2 theorem at a 401 response. -/
theorem check_classification_witness :
    (200 ≤ 401 ∧ 401 < 300 →
      check_koyeb_with_token (fun _ => HttpResult.response 401 "Unauthorized")
        "acct" "tok" = (true, "Token 校验成功")) ∧
    (400 ≤ 401 ∧ 401 < 600 →
      (check_koyeb_with_token (fun _ => HttpResult.response 401 "Unauthorized")
          "acct" "tok").1 = false ∧
      ∃ rest,
        (check_koyeb_with_token (fun _ => HttpResult.response 401 "Unauthorized")
            "acct" "tok").2 = toString 401 ++ rest) ∧
    ((check_koyeb_with_token (fun _ => HttpResult.response 401 "Unauthorized")
        "acct" "tok").1 = true ↔ ¬(400 ≤ 401 ∧ 401 < 600)) :=
  check_classification "acct" "tok" "Unauthorized" 401 (by decide)

/-- Closed instance of the C3 theorem with `KOYEB_ACCOUNTS` unset. -/
theorem config_fault_aborts_run_witness :
    ∃ e, validate_env_variables worldNoConfig.env worldNoConfig.parse = .error e ∧
      mainRun worldNoConfig =
        send_tg_message worldNoConfig.env ("❌ 脚本执行出错: " ++ e) ∧
      (mainRun worldNoConfig).countP Event.isGet = 0 ∧
      (mainRun worldNoConfig).countP Event.isTgCall = 1 :=
  config_fault_aborts_run worldNoConfig (Or.inl rfl)

/-- Closed instance of the C4 theorem on the empty-token fixture. -/
theorem empty_token_account_skipped_witness :
    accountStep sampleNet sampleSkipped =
      .ok ([], "⚠️ 账户: " ++ "b" ++ "\nToken 未配置，跳过") ∧
    runLoop sampleNet (sampleSkipped :: [sampleAccount]) =
      ((runLoop sampleNet [sampleAccount]).1,
       ("⚠️ 账户: " ++ "b" ++ "\nToken 未配置，跳过") ::
         (runLoop sampleNet [sampleAccount]).2.1,
       (runLoop sampleNet [sampleAccount]).2.2) :=
  empty_token_account_skipped sampleNet sampleSkipped [sampleAccount] "b" rfl rfl

/-- Closed instance of the C6 theorem with the bot token unset. -/
theorem missing_creds_no_post_witness :
    send_tg_message worldNoCreds.env "hello" = [Event.tgCall "hello"] ∧
    (mainRun worldNoCreds).countP Event.isTgPost = 0 :=
  missing_creds_no_post worldNoCreds "hello" (Or.inl rfl)

/-- Closed instance of the C7 theorem on the two-account fixture. -/
theorem summary_message_format_witness :
    ∃ accounts items,
      validate_env_variables worldOk.env worldOk.parse = .ok accounts ∧
      pyIter accounts = .ok items ∧
      (runLoop worldOk.net items).2.1.length = items.length ∧
      mainRun worldOk = (runLoop worldOk.net items).1 ++
        send_tg_message worldOk.env
          ("⏰ 北京时间: " ++ strftimeYMDHM (worldOk.utcnow + 8 * 3600) ++ "\n\n" ++
            String.intercalate "\n" (runLoop worldOk.net items).2.1 ++
            "\n\n✅ 任务执行完成") :=
  summary_message_format worldOk (mainRun worldOk) rfl

/-- Closed instance of the C8 theorem: the first event of the fixture run
is a GET and the second is the 5-second sleep. -/
theorem fixed_delay_after_each_check_witness :
    (mainRun worldOk)[0 + 1]? = some (Event.sleep 5) :=
  fixed_delay_after_each_check worldOk 0 "t" rfl

/-- Closed instance of the C9 theorem on the empty-list configuration. -/
theorem falsy_config_takes_error_path_witness :
    validate_env_variables worldFalsy.env worldFalsy.parse = .ok (JSON.arr []) ∧
    mainRun worldFalsy =
      send_tg_message worldFalsy.env
        "❌ 脚本执行出错: ❌ 没有找到有效的 Koyeb 账户信息" ∧
    (mainRun worldFalsy).countP Event.isGet = 0 ∧
    (mainRun worldFalsy).countP Event.isTgCall = 1 :=
  falsy_config_takes_error_path worldFalsy "[]" (JSON.arr []) rfl (by decide) rfl rfl

/-- Closed instance of the C10 theorem on a tab-and-spaces token. -/
theorem whitespace_token_like_empty_witness :
    tokenOf (JSON.obj [("name", JSON.str "w"), ("token", JSON.str " \t ")]) =
      .ok "" ∧
    accountStep sampleNet
        (JSON.obj [("name", JSON.str "w"), ("token", JSON.str " \t ")]) =
      .ok ([], "⚠️ 账户: " ++ "w" ++ "\nToken 未配置，跳过") :=
  whitespace_token_like_empty sampleNet
    [("name", JSON.str "w"), ("token", JSON.str " \t ")] "w" " \t " rfl rfl
    (by decide)

end Koyeb
